import Mathlib

/-
Shallow embedding of the ecobee-exporter collector (src/collector/collector.go).

The collector's `Collect` method fetches thermostat data from the ecobee API
and emits Prometheus gauge samples plus log messages.  We model one `Collect`
invocation as a pure function from a `World` — the results the external API
client would return for each call made during the scrape — to the list of
observable events (emitted samples and log lines), in emission order.

Modelling conventions:
- float64 values are modelled as exact rationals (ℚ);
- the wall-clock fetch duration is an input of the world (`elapsedSeconds`);
- `GetThermostatSummary` is called once per loop iteration in the source, so
  the world supplies its result per call index (each call is a separate
  network operation and may succeed or fail independently);
- Go map indexing with a missing key yields the zero value, modelled by
  `mapGetD` returning `default` when the association list has no entry;
- the reflective enumeration `reflect.VisibleFields` over
  `struct{ ecobee.EquipmentStatus }{}` yields the embedded-struct entry
  (whose `FieldByName` lookup is invalid and therefore skipped by the
  `IsValid` guard) followed by the promoted bool fields in declaration
  order; we model it as the static list `equipmentStatusFields` of
  (field name, accessor) pairs in that declaration order.
-/

set_option autoImplicit false

namespace Ecobee

/-- Selection filter sent to the ecobee API (ecobee.Selection): registration
scope plus boolean inclusion flags. -/
structure Selection where
  selectionType : String
  includeSensors : Bool := false
  includeRuntime : Bool := false
  includeSettings : Bool := false
  includeEquipmentStatus : Bool := false
deriving DecidableEq

/-- Equipment relay flags (ecobee.EquipmentStatus): a fixed schema of named
boolean relays, in the declaration order of the Go struct. -/
structure EquipmentStatus where
  heatPump : Bool
  heatPump2 : Bool
  heatPump3 : Bool
  compCool1 : Bool
  compCool2 : Bool
  auxHeat1 : Bool
  auxHeat2 : Bool
  auxHeat3 : Bool
  fan : Bool
  humidifier : Bool
  dehumidifier : Bool
  ventilator : Bool
  economizer : Bool
  compHotWater : Bool
  auxHotWater : Bool
deriving DecidableEq, Inhabited

/-- The relay schema, enumerated structurally: one (Go field name, accessor)
pair per bool field of `EquipmentStatus`, in declaration order.  This is the
static counterpart of the `reflect.VisibleFields` loop in `Collect`. -/
def equipmentStatusFields : List (String × (EquipmentStatus → Bool)) :=
  [("HeatPump", EquipmentStatus.heatPump),
   ("HeatPump2", EquipmentStatus.heatPump2),
   ("HeatPump3", EquipmentStatus.heatPump3),
   ("CompCool1", EquipmentStatus.compCool1),
   ("CompCool2", EquipmentStatus.compCool2),
   ("AuxHeat1", EquipmentStatus.auxHeat1),
   ("AuxHeat2", EquipmentStatus.auxHeat2),
   ("AuxHeat3", EquipmentStatus.auxHeat3),
   ("Fan", EquipmentStatus.fan),
   ("Humidifier", EquipmentStatus.humidifier),
   ("Dehumidifier", EquipmentStatus.dehumidifier),
   ("Ventilator", EquipmentStatus.ventilator),
   ("Economizer", EquipmentStatus.economizer),
   ("CompHotWater", EquipmentStatus.compHotWater),
   ("AuxHotWater", EquipmentStatus.auxHotWater)]

/-- One entry of the thermostat summary map (ecobee.ThermostatSummary);
only the equipment status is consumed by the collector. -/
structure ThermostatSummary where
  equipmentStatus : EquipmentStatus
deriving DecidableEq, Inhabited

/-- Result type of GetThermostatSummary: map from thermostat identifier to
summary, modelled as an association list. -/
abbrev SummaryMap := List (String × ThermostatSummary)

/-- Go map indexing: `m[k]` yields the zero value when the key is absent. -/
def mapGetD (m : SummaryMap) (k : String) : ThermostatSummary :=
  (List.lookup k m).getD default

/-- Thermostat runtime block (ecobee.Runtime); temperatures are raw
tenths-of-degree integers. -/
structure Runtime where
  connected : Bool
  actualTemperature : Int
  desiredCool : Int
  desiredHeat : Int
  desiredFanMode : String
deriving DecidableEq

/-- Thermostat settings block (ecobee.Settings); only the hvac mode is used. -/
structure Settings where
  hvacMode : String
deriving DecidableEq

/-- One sensor capability (ecobee.SensorCapability): a type tag and a string
value. -/
structure Capability where
  type : String
  value : String
deriving DecidableEq

/-- A remote sensor (ecobee.RemoteSensor). -/
structure RemoteSensor where
  id : String
  name : String
  type : String
  inUse : Bool
  capability : List Capability
deriving DecidableEq

/-- A thermostat snapshot (ecobee.Thermostat), restricted to the fields the
collector reads. -/
structure Thermostat where
  identifier : String
  name : String
  runtime : Runtime
  settings : Settings
  remoteSensors : List RemoteSensor
deriving DecidableEq

/-- Identity of one of the collector's 11 metric descriptors. -/
inductive MetricId where
  | fetchTime
  | actualTemperature
  | targetTemperatureMax
  | targetTemperatureMin
  | temperature
  | humidity
  | occupancy
  | inUse
  | currentHvacMode
  | currentFanMode
  | equipmentRunning
deriving DecidableEq

/-- An emitted gauge sample: metric identity, value, ordered label values. -/
structure Sample where
  desc : MetricId
  value : ℚ
  labels : List String
deriving DecidableEq

/-- Observable events of one `Collect` run, in order: emitted samples and
log lines (log.Error / log.Errorf vs log.Infof). -/
inductive Event where
  | sample (s : Sample)
  | logError (msg : String)
  | logInfo (msg : String)
deriving DecidableEq

/-- Project an event to its sample, when it is one. -/
def sampleOf : Event → Option Sample
  | .sample s => some s
  | .logError _ => none
  | .logInfo _ => none

/-- The sample subsequence of an event list (what the metrics sink sees). -/
def samplesOf (es : List Event) : List Sample :=
  es.filterMap sampleOf

/-- The `Bool2Float` lookup table: `map[bool]float64{false: 0, true: 1}`. -/
def bool2Float (b : Bool) : ℚ := if b then 1 else 0

/-- Value of a list of decimal digit characters. -/
def digitsVal (l : List Char) : ℚ :=
  l.foldl (fun a c => a * 10 + ((c.toNat : ℚ) - 48)) 0

/-- Modelled `strconv.ParseFloat` restricted to plain decimal literals: an
optional sign, integer digits, and an optional fractional part (no exponent,
hex, Inf or NaN forms).  Returns `none` exactly when parsing fails. -/
def parseFloat (s : String) : Option ℚ :=
  let cs := s.data
  let sign : ℚ := if cs.head? = some '-' then -1 else 1
  let body := if cs.head? = some '-' ∨ cs.head? = some '+' then cs.tail else cs
  let ip := body.takeWhile Char.isDigit
  let r1 := body.dropWhile Char.isDigit
  if r1.isEmpty then
    if ip.isEmpty then none else some (sign * digitsVal ip)
  else if r1.head? = some '.' then
    let fp := r1.tail.takeWhile Char.isDigit
    let r2 := r1.tail.dropWhile Char.isDigit
    if r2.isEmpty then
      if ip.isEmpty && fp.isEmpty then none
      else some (sign * (digitsVal ip + digitsVal fp / (10 : ℚ) ^ fp.length))
    else none
  else none

/-- Events emitted for one sensor capability: the `switch sc.Type` body. -/
def collectCapability (sFields : List String) (sc : Capability) : List Event :=
  if sc.type = "temperature" then
    match parseFloat sc.value with
    | some v => [.sample ⟨.temperature, v / 10, sFields⟩]
    | none => [.logError ("invalid syntax " ++ sc.value)]
  else if sc.type = "humidity" then
    match parseFloat sc.value with
    | some v => [.sample ⟨.humidity, v, sFields⟩]
    | none => [.logError ("invalid syntax " ++ sc.value)]
  else if sc.type = "occupancy" then
    if sc.value = "true" then [.sample ⟨.occupancy, 1, sFields⟩]
    else if sc.value = "false" then [.sample ⟨.occupancy, 0, sFields⟩]
    else [.logError ("unknown sensor occupancy value " ++ sc.value)]
  else [.logInfo ("ignoring sensor capability " ++ sc.type)]

/-- Events emitted for one remote sensor: the in-use gauge followed by the
events of each capability in order. -/
def collectSensor (tFields : List String) (s : RemoteSensor) : List Event :=
  let sFields := tFields ++ [s.id, s.name, s.type]
  Event.sample ⟨.inUse, bool2Float s.inUse, sFields⟩ ::
    s.capability.flatMap (collectCapability sFields)

/-- Events emitted for one thermostat once its equipment-summary fetch has
succeeded with result `ts`: the connected-only runtime, mode and equipment
samples, then the sensor events. -/
def collectThermostat (ts : SummaryMap) (t : Thermostat) : List Event :=
  let tFields := [t.identifier, t.name]
  (if t.runtime.connected then
    [Event.sample ⟨.actualTemperature, (t.runtime.actualTemperature : ℚ) / 10, tFields⟩,
     Event.sample ⟨.targetTemperatureMax, (t.runtime.desiredCool : ℚ) / 10, tFields⟩,
     Event.sample ⟨.targetTemperatureMin, (t.runtime.desiredHeat : ℚ) / 10, tFields⟩,
     Event.sample ⟨.currentHvacMode, 0, [t.identifier, t.name, t.settings.hvacMode]⟩,
     Event.sample ⟨.currentFanMode, 0, [t.identifier, t.name, t.runtime.desiredFanMode]⟩]
    ++ equipmentStatusFields.map (fun p =>
        Event.sample ⟨.equipmentRunning,
          bool2Float (p.2 (mapGetD ts t.identifier).equipmentStatus),
          [t.identifier, t.name, p.1]⟩)
  else [])
  ++ t.remoteSensors.flatMap (collectSensor tFields)

/-- The results the external API client returns during one scrape.
`getThermostatSummary` takes the call index within the scrape, since the
source issues that request once per loop iteration. -/
structure World where
  getThermostats : Selection → Except String (List Thermostat)
  getThermostatSummary : Selection → Nat → Except String SummaryMap
  elapsedSeconds : ℚ

/-- The selection passed to GetThermostats in `Collect`. -/
def thermostatSelection : Selection :=
  { selectionType := "registered", includeSensors := true,
    includeRuntime := true, includeSettings := true }

/-- The selection passed to GetThermostatSummary in `Collect`. -/
def summarySelection : Selection :=
  { selectionType := "registered", includeEquipmentStatus := true }

/-- The per-thermostat loop of `Collect`, starting at summary-fetch call
index `k`: re-fetch the equipment summary, aborting the whole scrape (early
`return`) on failure, else emit this thermostat's events and continue. -/
def collectLoop (w : World) : List Thermostat → Nat → List Event
  | [], _ => []
  | t :: rest, k =>
    match w.getThermostatSummary summarySelection k with
    | .error e => [.logError e]
    | .ok ts => collectThermostat ts t ++ collectLoop w rest (k + 1)

/-- One `Collect` invocation: emit the fetch-time gauge, then on primary
fetch failure log and return, else run the per-thermostat loop. -/
def collect (w : World) : List Event :=
  Event.sample ⟨.fetchTime, w.elapsedSeconds, []⟩ ::
    match w.getThermostats thermostatSelection with
    | .error e => [.logError e]
    | .ok tt => collectLoop w tt 0

/-- The rewrite contemplated by the spec: the equipment-summary fetch hoisted
out of the per-thermostat loop, performed once per scrape. -/
def collectHoisted (w : World) : List Event :=
  Event.sample ⟨.fetchTime, w.elapsedSeconds, []⟩ ::
    match w.getThermostats thermostatSelection with
    | .error e => [.logError e]
    | .ok tt =>
      match w.getThermostatSummary summarySelection 0 with
      | .error e => [.logError e]
      | .ok ts => tt.flatMap (collectThermostat ts)

/-- Events of a thermostat list processed with the summary result of call
`k` for the thermostat at offset `k` — the successful portion of the loop,
used to describe what a partially failed scrape has already emitted. -/
def okEvents (ms : Nat → SummaryMap) : Nat → List Thermostat → List Event
  | _, [] => []
  | k, t :: rest => collectThermostat (ms k) t ++ okEvents ms (k + 1) rest

/-- Example equipment status with only the fan relay on. -/
def exFanOn : EquipmentStatus :=
  { heatPump := false, heatPump2 := false, heatPump3 := false,
    compCool1 := false, compCool2 := false, auxHeat1 := false,
    auxHeat2 := false, auxHeat3 := false, fan := true, humidifier := false,
    dehumidifier := false, ventilator := false, economizer := false,
    compHotWater := false, auxHotWater := false }

/-- Example disconnected thermostat carrying one remote sensor. -/
def exDisconnected : Thermostat :=
  { identifier := "t1", name := "Home",
    runtime := { connected := false, actualTemperature := 700,
                 desiredCool := 720, desiredHeat := 680,
                 desiredFanMode := "auto" },
    settings := { hvacMode := "heat" },
    remoteSensors :=
      [{ id := "s1", name := "S", type := "occupancy", inUse := true,
         capability := [{ type := "occupancy", value := "true" }] }] }

/-- Example connected thermostat with negative raw temperature readings. -/
def exNegative : Thermostat :=
  { identifier := "t2", name := "Cabin",
    runtime := { connected := true, actualTemperature := -725,
                 desiredCool := -5, desiredHeat := -680,
                 desiredFanMode := "on" },
    settings := { hvacMode := "cool" },
    remoteSensors := [] }

/-- Example world whose only thermostat is `exDisconnected`, with both
fetches succeeding. -/
def exWorldDisconnected : World :=
  { getThermostats := fun _ => .ok [exDisconnected],
    getThermostatSummary := fun _ _ => .ok [("t1", ⟨exFanOn⟩)],
    elapsedSeconds := 1 }

/-- Example world with two thermostats whose second equipment-summary fetch
fails. -/
def exWorldPartial : World :=
  { getThermostats := fun _ => .ok [exNegative, exDisconnected],
    getThermostatSummary := fun _ k =>
      if k = 0 then .ok [("t2", ⟨exFanOn⟩)] else .error "summary down",
    elapsedSeconds := 3 }

/-- Example world whose equipment-summary fetch result is the same on every
call. -/
def exWorldConst : World :=
  { getThermostats := fun _ => .ok [exNegative, exDisconnected],
    getThermostatSummary := fun _ _ => .ok [("t2", ⟨exFanOn⟩)],
    elapsedSeconds := 5 }

@[simp] lemma sampleOf_sample (s : Sample) : sampleOf (.sample s) = some s := rfl

@[simp] lemma sampleOf_logError (m : String) : sampleOf (.logError m) = none := rfl

@[simp] lemma sampleOf_logInfo (m : String) : sampleOf (.logInfo m) = none := rfl

@[simp] lemma samplesOf_nil : samplesOf [] = [] := rfl

@[simp] lemma samplesOf_cons (e : Event) (es : List Event) :
    samplesOf (e :: es) = (sampleOf e).toList ++ samplesOf es := by
  cases e <;> simp [samplesOf]

@[simp] lemma samplesOf_append (a b : List Event) :
    samplesOf (a ++ b) = samplesOf a ++ samplesOf b := by
  simp [samplesOf]

@[simp] lemma samplesOf_flatMap {α : Type} (l : List α) (f : α → List Event) :
    samplesOf (l.flatMap f) = l.flatMap (fun x => samplesOf (f x)) := by
  induction l with
  | nil => rfl
  | cons x xs ih => simp [ih]

/-- Every sample a sensor block emits carries one of the four sensor metric
identities. -/
lemma desc_of_collectSensor (tFields : List String) (sn : RemoteSensor) :
    ∀ s ∈ samplesOf (collectSensor tFields sn),
      s.desc = .inUse ∨ s.desc = .temperature ∨ s.desc = .humidity ∨
        s.desc = .occupancy := by
  intro s hs
  simp only [collectSensor, samplesOf_cons, sampleOf_sample, Option.toList_some,
    List.cons_append, List.nil_append, List.mem_cons] at hs
  rcases hs with rfl | hs
  · exact Or.inl rfl
  have : ∀ sc ∈ sn.capability,
      ∀ s' ∈ samplesOf
        (collectCapability (tFields ++ [sn.id, sn.name, sn.type]) sc),
        s'.desc = .inUse ∨ s'.desc = .temperature ∨ s'.desc = .humidity ∨
          s'.desc = .occupancy := by
    intro sc _ s' hs'
    unfold collectCapability at hs'
    split at hs'
    · split at hs' <;> simp_all
    split at hs'
    · split at hs' <;> simp_all
    split at hs'
    · split at hs' <;> simp_all
      split at hs' <;> simp_all
    · simp_all
  rw [samplesOf_flatMap, List.mem_flatMap] at hs
  obtain ⟨sc, hsc, hs⟩ := hs
  exact this sc hsc s hs

@[simp] lemma samplesOf_map_sample {α : Type} (l : List α) (f : α → Sample) :
    samplesOf (l.map (fun x => Event.sample (f x))) = l.map f := by
  induction l with
  | nil => rfl
  | cons x xs ih => simp [ih]

/-- Every sample a per-thermostat block emits carries one of the ten
non-fetch-time metric identities. -/
lemma desc_of_collectThermostat (ts : SummaryMap) (t : Thermostat) :
    ∀ s ∈ samplesOf (collectThermostat ts t),
      s.desc = .actualTemperature ∨ s.desc = .targetTemperatureMax ∨
      s.desc = .targetTemperatureMin ∨ s.desc = .currentHvacMode ∨
      s.desc = .currentFanMode ∨ s.desc = .equipmentRunning ∨
      s.desc = .inUse ∨ s.desc = .temperature ∨ s.desc = .humidity ∨
      s.desc = .occupancy := by
  intro s hs
  unfold collectThermostat at hs
  simp only [samplesOf_append, List.mem_append] at hs
  rcases hs with hs | hs
  · split at hs
    · simp only [samplesOf_append, List.mem_append] at hs
      rcases hs with hs | hs
      · simp only [samplesOf_cons, sampleOf_sample, Option.toList_some,
          samplesOf_nil, List.cons_append, List.nil_append, List.mem_cons,
          List.not_mem_nil, or_false] at hs
        rcases hs with rfl | rfl | rfl | rfl | rfl <;> simp
      · rw [samplesOf_map_sample, List.mem_map] at hs
        obtain ⟨p, _, rfl⟩ := hs
        simp
    · simp at hs
  · rw [samplesOf_flatMap, List.mem_flatMap] at hs
    obtain ⟨sn, hsn, hs⟩ := hs
    rcases desc_of_collectSensor [t.identifier, t.name] sn s hs with
      h | h | h | h <;> simp [h]

/-- Every sample the per-thermostat loop emits carries a non-fetch-time
metric identity. -/
lemma desc_of_collectLoop (w : World) :
    ∀ (tt : List Thermostat) (k : Nat),
      ∀ s ∈ samplesOf (collectLoop w tt k), s.desc ≠ .fetchTime := by
  intro tt
  induction tt with
  | nil => intro k s hs; simp [collectLoop] at hs
  | cons t rest ih =>
    intro k s hs
    unfold collectLoop at hs
    split at hs
    · simp [samplesOf] at hs
    · simp only [samplesOf_append, List.mem_append] at hs
      rcases hs with hs | hs
      · rcases desc_of_collectThermostat _ t s hs with
          h | h | h | h | h | h | h | h | h | h <;> simp [h]
      · exact ih (k + 1) s hs

/-- C1: every `Collect` invocation emits the fetch-time gauge sample exactly
once, whatever the fetch results are — in particular regardless of primary or
equipment-summary fetch failures. -/
theorem fetch_time_emitted_once (w : World) :
    (samplesOf (collect w)).countP
      (fun s => decide (s.desc = MetricId.fetchTime)) = 1 := by
  unfold collect
  cases h : w.getThermostats thermostatSelection with
  | error e =>
    simp [samplesOf]
  | ok tt =>
    simp only [samplesOf_cons, sampleOf_sample, Option.toList_some,
      List.cons_append, List.nil_append, List.countP_cons]
    rw [List.countP_eq_zero.mpr]
    · simp
    · intro s hs
      simpa using desc_of_collectLoop w tt 0 s hs

/-- C5: when the primary thermostat fetch fails, `Collect` emits the
fetch-time gauge, logs the error, and emits nothing else; its sample output
is exactly the one fetch-time sample.  (The embedding is a total function:
no error value, exception or panic reaches the caller.) -/
theorem primary_fetch_failure_single_sample (w : World) (e : String)
    (h : w.getThermostats thermostatSelection = .error e) :
    collect w =
      [Event.sample ⟨.fetchTime, w.elapsedSeconds, []⟩, Event.logError e] ∧
    samplesOf (collect w) = [⟨.fetchTime, w.elapsedSeconds, []⟩] := by
  unfold collect
  rw [h]
  exact ⟨rfl, by simp [samplesOf]⟩

/-- No sample of a sensor-events list survives a filter that rejects the
four sensor metric identities. -/
lemma sensors_filter_eq_nil (tFields : List String) (sns : List RemoteSensor)
    (p : Sample → Bool)
    (hp : ∀ s : Sample,
      (s.desc = .inUse ∨ s.desc = .temperature ∨ s.desc = .humidity ∨
        s.desc = .occupancy) → p s = false) :
    (samplesOf (sns.flatMap (collectSensor tFields))).filter p = [] := by
  rw [List.filter_eq_nil_iff]
  intro s hs
  rw [samplesOf_flatMap, List.mem_flatMap] at hs
  obtain ⟨sn, _, hs⟩ := hs
  simp [hp s (desc_of_collectSensor tFields sn s hs)]

/-- C4: a disconnected thermostat contributes no runtime-temperature, no
hvac-mode and no fan-mode samples; its block is exactly the events of its
remote sensors, which are still iterated. -/
theorem disconnected_thermostat_skips_runtime_metrics (ts : SummaryMap)
    (t : Thermostat) (h : t.runtime.connected = false) :
    collectThermostat ts t =
      t.remoteSensors.flatMap (collectSensor [t.identifier, t.name]) ∧
    (samplesOf (collectThermostat ts t)).countP
        (fun s => decide (s.desc = .actualTemperature ∨
          s.desc = .targetTemperatureMax ∨ s.desc = .targetTemperatureMin ∨
          s.desc = .currentHvacMode ∨ s.desc = .currentFanMode)) = 0 := by
  have hblock : collectThermostat ts t =
      t.remoteSensors.flatMap (collectSensor [t.identifier, t.name]) := by
    unfold collectThermostat
    rw [h]
    simp
  refine ⟨hblock, ?_⟩
  rw [hblock, List.countP_eq_zero]
  intro s hs
  rw [samplesOf_flatMap, List.mem_flatMap] at hs
  obtain ⟨sn, _, hs⟩ := hs
  rcases desc_of_collectSensor [t.identifier, t.name] sn s hs with
    h' | h' | h' | h' <;> simp [h']

/-- C6: a connected thermostat's block contains exactly one
actual-temperature, one target-temperature-max and one target-temperature-min
sample, valued at the raw tenths-of-degree integer divided by 10, for every
integer raw value (negative included). -/
theorem connected_temperature_scaling (ts : SummaryMap) (t : Thermostat)
    (h : t.runtime.connected = true) :
    (samplesOf (collectThermostat ts t)).filter
        (fun s => decide (s.desc = .actualTemperature)) =
      [⟨.actualTemperature, (t.runtime.actualTemperature : ℚ) / 10,
        [t.identifier, t.name]⟩] ∧
    (samplesOf (collectThermostat ts t)).filter
        (fun s => decide (s.desc = .targetTemperatureMax)) =
      [⟨.targetTemperatureMax, (t.runtime.desiredCool : ℚ) / 10,
        [t.identifier, t.name]⟩] ∧
    (samplesOf (collectThermostat ts t)).filter
        (fun s => decide (s.desc = .targetTemperatureMin)) =
      [⟨.targetTemperatureMin, (t.runtime.desiredHeat : ℚ) / 10,
        [t.identifier, t.name]⟩] := by
  unfold collectThermostat
  rw [h]
  refine ⟨?_, ?_, ?_⟩ <;>
  · simp only [if_true, samplesOf_append, samplesOf_cons, sampleOf_sample,
      Option.toList_some, samplesOf_nil, samplesOf_map_sample,
      List.cons_append, List.nil_append, List.filter_append,
      List.filter_cons, List.filter_nil]
    rw [List.filter_eq_nil_iff.mpr, sensors_filter_eq_nil]
    · simp
    · intro s hs
      rcases hs with h' | h' | h' | h' <;> rw [h'] <;> rfl
    · intro s hs
      rw [List.mem_map] at hs
      obtain ⟨p, _, rfl⟩ := hs
      simp

/-- C7: for a capability tagged `temperature`, a parsable value emits one
gauge sample at the parsed value divided by 10; an unparsable value emits no
sample and one error log; and the sensor's remaining capabilities are still
processed after it. -/
theorem temperature_capability_parse (sFields : List String) (sc : Capability)
    (h : sc.type = "temperature") :
    (∀ v : ℚ, parseFloat sc.value = some v →
      collectCapability sFields sc = [.sample ⟨.temperature, v / 10, sFields⟩]) ∧
    (parseFloat sc.value = none →
      collectCapability sFields sc =
        [.logError ("invalid syntax " ++ sc.value)]) ∧
    (∀ (tFields : List String) (sn : RemoteSensor) (rest : List Capability),
      sn.capability = sc :: rest →
      collectSensor tFields sn =
        Event.sample ⟨.inUse, bool2Float sn.inUse,
            tFields ++ [sn.id, sn.name, sn.type]⟩ ::
          (collectCapability (tFields ++ [sn.id, sn.name, sn.type]) sc ++
            rest.flatMap
              (collectCapability (tFields ++ [sn.id, sn.name, sn.type])))) := by
  refine ⟨?_, ?_, ?_⟩
  · intro v hv
    unfold collectCapability
    rw [h, hv]
    simp
  · intro hv
    unfold collectCapability
    rw [h, hv]
    simp
  · intro tFields sn rest hcap
    unfold collectSensor
    rw [hcap]
    rfl

/-- Witness for C7: value `"725"` yields `72.5`, value `"abc"` yields only a
logged error. -/
theorem temperature_capability_parse_witness :
    collectCapability ["t1", "Home", "s1", "S", "unit"]
        ⟨"temperature", "725"⟩ =
      [.sample ⟨.temperature, (725 : ℚ) / 10, ["t1", "Home", "s1", "S", "unit"]⟩] ∧
    collectCapability ["t1", "Home", "s1", "S", "unit"]
        ⟨"temperature", "abc"⟩ =
      [.logError ("invalid syntax " ++ "abc")] :=
  ⟨(temperature_capability_parse _ _ rfl).1 725
      (by simp [parseFloat, digitsVal]; norm_num),
   (temperature_capability_parse _ _ rfl).2.1 (by simp [parseFloat])⟩

/-- C8: for a capability tagged `occupancy`, the literal value `"true"`
emits one sample of value 1, `"false"` one sample of value 0, and any other
string emits no sample and exactly one error log. -/
theorem occupancy_capability_tristate (sFields : List String) (sc : Capability)
    (h : sc.type = "occupancy") :
    (sc.value = "true" →
      collectCapability sFields sc = [.sample ⟨.occupancy, 1, sFields⟩]) ∧
    (sc.value = "false" →
      collectCapability sFields sc = [.sample ⟨.occupancy, 0, sFields⟩]) ∧
    (sc.value ≠ "true" → sc.value ≠ "false" →
      collectCapability sFields sc =
        [.logError ("unknown sensor occupancy value " ++ sc.value)]) := by
  refine ⟨?_, ?_, ?_⟩ <;> unfold collectCapability <;> rw [h]
  · intro hv
    rw [hv]
    rfl
  · intro hv
    rw [hv]
    rfl
  · intro h1 h2
    simp [h1, h2]

/-- Witness for C8 at the three value classes. -/
theorem occupancy_capability_tristate_witness :
    collectCapability ["l"] ⟨"occupancy", "true"⟩ =
      [.sample ⟨.occupancy, 1, ["l"]⟩] ∧
    collectCapability ["l"] ⟨"occupancy", "false"⟩ =
      [.sample ⟨.occupancy, 0, ["l"]⟩] ∧
    collectCapability ["l"] ⟨"occupancy", "unknown"⟩ =
      [.logError ("unknown sensor occupancy value " ++ "unknown")] :=
  ⟨(occupancy_capability_tristate _ _ rfl).1 rfl,
   (occupancy_capability_tristate _ _ rfl).2.1 rfl,
   (occupancy_capability_tristate _ _ rfl).2.2 (by decide) (by decide)⟩

/-- Witness for C5 at a concrete failing world. -/
theorem primary_fetch_failure_single_sample_witness :
    collect
        { getThermostats := fun _ => Except.error "api down",
          getThermostatSummary := fun _ _ => Except.ok [],
          elapsedSeconds := 2 } =
      [Event.sample ⟨.fetchTime, 2, []⟩, Event.logError "api down"] ∧
    samplesOf
        (collect
          { getThermostats := fun _ => Except.error "api down",
            getThermostatSummary := fun _ _ => Except.ok [],
            elapsedSeconds := 2 }) =
      [⟨.fetchTime, 2, []⟩] :=
  primary_fetch_failure_single_sample _ "api down" rfl

/-- Witness for C4: the disconnected example thermostat's block is exactly
its sensor events, runtime and mode metrics absent. -/
theorem disconnected_thermostat_skips_runtime_metrics_witness :
    collectThermostat [("t1", ⟨exFanOn⟩)] exDisconnected =
      exDisconnected.remoteSensors.flatMap
        (collectSensor [exDisconnected.identifier, exDisconnected.name]) ∧
    (samplesOf (collectThermostat [("t1", ⟨exFanOn⟩)] exDisconnected)).countP
        (fun s => decide (s.desc = .actualTemperature ∨
          s.desc = .targetTemperatureMax ∨ s.desc = .targetTemperatureMin ∨
          s.desc = .currentHvacMode ∨ s.desc = .currentFanMode)) = 0 :=
  disconnected_thermostat_skips_runtime_metrics [("t1", ⟨exFanOn⟩)]
    exDisconnected rfl

/-- Witness for C6 at negative raw values: -725 tenths scale to -72.5. -/
theorem connected_temperature_scaling_witness :
    (samplesOf (collectThermostat [] exNegative)).filter
        (fun s => decide (s.desc = .actualTemperature)) =
      [⟨.actualTemperature, ((-725 : Int) : ℚ) / 10, ["t2", "Cabin"]⟩] ∧
    (samplesOf (collectThermostat [] exNegative)).filter
        (fun s => decide (s.desc = .targetTemperatureMax)) =
      [⟨.targetTemperatureMax, ((-5 : Int) : ℚ) / 10, ["t2", "Cabin"]⟩] ∧
    (samplesOf (collectThermostat [] exNegative)).filter
        (fun s => decide (s.desc = .targetTemperatureMin)) =
      [⟨.targetTemperatureMin, ((-680 : Int) : ℚ) / 10, ["t2", "Cabin"]⟩] :=
  connected_temperature_scaling [] exNegative rfl

/-- In an association list with pairwise-distinct keys, filtering for the
key of a member keeps exactly that member. -/
lemma filter_key_of_nodup {α β : Type} [DecidableEq α] :
    ∀ (l : List (α × β)) (n : α) (f : β), (n, f) ∈ l →
      (l.map Prod.fst).Nodup → l.filter (fun p => decide (p.1 = n)) = [(n, f)]
  | [], n, f, hf, _ => absurd hf (List.not_mem_nil _)
  | (a, b) :: rest, n, f, hf, hnd => by
    rw [List.map_cons, List.nodup_cons] at hnd
    rcases List.mem_cons.mp hf with heq | hmem
    · injection heq with h1 h2
      subst h1
      subst h2
      have hrest : rest.filter (fun p => decide (p.1 = n)) = [] := by
        rw [List.filter_eq_nil_iff]
        intro p hp hpn
        have hp1 : p.1 = n := by simpa using hpn
        have hmem2 : p.1 ∈ rest.map Prod.fst := List.mem_map_of_mem Prod.fst hp
        rw [hp1] at hmem2
        exact hnd.1 hmem2
      rw [List.filter_cons]
      simp [hrest]
    · have han : a ≠ n := by
        intro h
        subst h
        have hmem2 : (a, f).1 ∈ rest.map Prod.fst :=
          List.mem_map_of_mem Prod.fst hmem
        exact hnd.1 hmem2
      rw [List.filter_cons]
      simp only [decide_eq_true_eq, han, if_false]
      exact filter_key_of_nodup rest n f hmem hnd.2

/-- Filtering the relay schema for one of its names keeps exactly that
entry. -/
lemma equipmentStatusFields_filter_name (n : String)
    (f : EquipmentStatus → Bool) (hf : (n, f) ∈ equipmentStatusFields) :
    equipmentStatusFields.filter (fun p => decide (p.1 = n)) = [(n, f)] :=
  filter_key_of_nodup equipmentStatusFields n f hf (by decide)

/-- C2 (amended): for a connected thermostat whose block was reached (its
equipment-summary fetch succeeded), each relay of the schema yields exactly
one equipment-running sample labeled with the relay's name, valued 1 when
the relay is true and 0 when false. -/
theorem equipment_running_per_connected_thermostat (ts : SummaryMap)
    (t : Thermostat) (hc : t.runtime.connected = true) (n : String)
    (f : EquipmentStatus → Bool) (hf : (n, f) ∈ equipmentStatusFields) :
    (samplesOf (collectThermostat ts t)).filter
        (fun s => decide (s.desc = MetricId.equipmentRunning ∧
          s.labels = [t.identifier, t.name, n])) =
      [⟨MetricId.equipmentRunning,
        if f (mapGetD ts t.identifier).equipmentStatus then 1 else 0,
        [t.identifier, t.name, n]⟩] := by
  unfold collectThermostat
  rw [hc]
  simp only [if_true, samplesOf_append, samplesOf_cons, sampleOf_sample,
    Option.toList_some, samplesOf_nil, samplesOf_map_sample, List.cons_append,
    List.nil_append, List.filter_append, List.filter_cons, List.filter_nil]
  rw [List.filter_map, List.filter_congr
      (l := equipmentStatusFields)
      (q := fun p => decide (p.1 = n)) (by intro p _; simp),
    equipmentStatusFields_filter_name n f hf,
    sensors_filter_eq_nil]
  · simp [bool2Float]
  · intro s hs
    rcases hs with h' | h' | h' | h' <;> simp [h']

/-- Witness for the amended C2: the connected example thermostat with the
fan relay on yields exactly one `Fan` sample, valued 1. -/
theorem equipment_running_per_connected_thermostat_witness :
    (samplesOf (collectThermostat [("t2", ⟨exFanOn⟩)] exNegative)).filter
        (fun s => decide (s.desc = MetricId.equipmentRunning ∧
          s.labels = [exNegative.identifier, exNegative.name, "Fan"])) =
      [⟨MetricId.equipmentRunning,
        if EquipmentStatus.fan
            (mapGetD [("t2", ⟨exFanOn⟩)] exNegative.identifier).equipmentStatus
          then 1 else 0,
        [exNegative.identifier, exNegative.name, "Fan"]⟩] :=
  equipment_running_per_connected_thermostat [("t2", ⟨exFanOn⟩)] exNegative
    rfl "Fan" EquipmentStatus.fan (by simp [equipmentStatusFields])

/-- Counterexample for C2 as stated: a disconnected thermostat belongs to
the fetched set and `Fan` is a relay of the schema, yet the scrape emits no
equipment-running sample for it at all. -/
theorem equipment_running_per_thermostat_counterexample :
    exWorldDisconnected.getThermostats thermostatSelection =
      Except.ok [exDisconnected] ∧
    ("Fan", EquipmentStatus.fan) ∈ equipmentStatusFields ∧
    (samplesOf (collect exWorldDisconnected)).countP
        (fun s => decide (s.desc = MetricId.equipmentRunning ∧
          s.labels = ["t1", "Home", "Fan"])) = 0 := by
  refine ⟨rfl, by simp [equipmentStatusFields], ?_⟩
  rfl

/-- Every relay accessor reads `false` from the zero-valued equipment
status. -/
lemma relay_default_false :
    ∀ p ∈ equipmentStatusFields, p.2 (default : EquipmentStatus) = false := by
  intro p hp
  have h : p.2 (default : EquipmentStatus) ∈
      equipmentStatusFields.map (fun q => q.2 (default : EquipmentStatus)) :=
    List.mem_map_of_mem _ hp
  rw [show equipmentStatusFields.map
        (fun q => q.2 (default : EquipmentStatus)) =
      List.replicate 15 false from rfl] at h
  exact List.eq_of_mem_replicate h

/-- C10: a connected thermostat absent from the equipment-summary map is not
skipped: the zero-value record is used and every relay emits one sample of
value 0. -/
theorem missing_summary_entry_emits_zero_relays (ts : SummaryMap)
    (t : Thermostat) (hc : t.runtime.connected = true)
    (habs : List.lookup t.identifier ts = none) :
    (samplesOf (collectThermostat ts t)).filter
        (fun s => decide (s.desc = MetricId.equipmentRunning)) =
      equipmentStatusFields.map
        (fun p => ⟨MetricId.equipmentRunning, 0, [t.identifier, t.name, p.1]⟩) := by
  have hdef : mapGetD ts t.identifier = default := by
    unfold mapGetD
    rw [habs]
    rfl
  have hsens : (samplesOf (t.remoteSensors.flatMap
      (collectSensor [t.identifier, t.name]))).filter
        (fun s => decide (s.desc = MetricId.equipmentRunning)) = [] := by
    apply sensors_filter_eq_nil
    intro s hs
    rcases hs with h' | h' | h' | h' <;> simp [h']
  have hkeep : (equipmentStatusFields.map (fun p =>
        Sample.mk MetricId.equipmentRunning
          (bool2Float (p.2 (default : ThermostatSummary).equipmentStatus))
          [t.identifier, t.name, p.1])).filter
        (fun s => decide (s.desc = MetricId.equipmentRunning)) =
      equipmentStatusFields.map (fun p =>
        Sample.mk MetricId.equipmentRunning
          (bool2Float (p.2 (default : ThermostatSummary).equipmentStatus))
          [t.identifier, t.name, p.1]) := by
    apply List.filter_eq_self.mpr
    intro s hs
    rw [List.mem_map] at hs
    obtain ⟨p, _, hps⟩ := hs
    rw [← hps]
    simp
  unfold collectThermostat
  rw [hc, hdef]
  simp only [if_true, samplesOf_append, samplesOf_cons, sampleOf_sample,
    Option.toList_some, samplesOf_nil, samplesOf_map_sample, List.cons_append,
    List.nil_append, List.filter_append, List.filter_cons, List.filter_nil,
    hsens, hkeep, List.append_nil]
  simp only [decide_eq_true_eq, reduceCtorEq, if_false]
  refine List.map_congr_left ?_
  intro p hp
  rw [show (default : ThermostatSummary).equipmentStatus =
        (default : EquipmentStatus) from rfl,
    relay_default_false p hp]
  rfl

/-- Witness for C10: the absent identifier `t2` yields fifteen relay samples
all valued 0. -/
theorem missing_summary_entry_emits_zero_relays_witness :
    (samplesOf (collectThermostat [("t1", ⟨exFanOn⟩)] exNegative)).filter
        (fun s => decide (s.desc = MetricId.equipmentRunning)) =
      equipmentStatusFields.map
        (fun p => ⟨MetricId.equipmentRunning, 0,
          [exNegative.identifier, exNegative.name, p.1]⟩) :=
  missing_summary_entry_emits_zero_relays [("t1", ⟨exFanOn⟩)] exNegative
    rfl rfl

/-- When the summary fetch first fails at the `k`-th call, the loop emits the
events of the first `k` thermostats and then only the logged error. -/
lemma collectLoop_error (w : World) (ms : Nat → SummaryMap) (e : String) :
    ∀ (tt : List Thermostat) (i k : Nat),
      (∀ j, j < k →
        w.getThermostatSummary summarySelection (i + j) = .ok (ms (i + j))) →
      w.getThermostatSummary summarySelection (i + k) = .error e →
      k < tt.length →
      collectLoop w tt i = okEvents ms i (tt.take k) ++ [Event.logError e] := by
  intro tt
  induction tt with
  | nil =>
    intro i k _ _ hk
    simp at hk
  | cons t rest ih =>
    intro i k hok herr hk
    cases k with
    | zero =>
      rw [Nat.add_zero] at herr
      unfold collectLoop
      rw [herr]
      rfl
    | succ k' =>
      have h0 : w.getThermostatSummary summarySelection i = .ok (ms i) := by
        have h := hok 0 (Nat.succ_pos k')
        rwa [Nat.add_zero] at h
      have hok' : ∀ j, j < k' →
          w.getThermostatSummary summarySelection ((i + 1) + j) =
            .ok (ms ((i + 1) + j)) := by
        intro j hj
        have h := hok (j + 1) (by omega)
        rwa [show i + (j + 1) = (i + 1) + j by omega] at h
      have herr' :
          w.getThermostatSummary summarySelection ((i + 1) + k') = .error e := by
        rwa [show i + (k' + 1) = (i + 1) + k' by omega] at herr
      have hk' : k' < rest.length := by
        simp at hk
        omega
      unfold collectLoop
      rw [h0, ih (i + 1) k' hok' herr' hk', List.take_succ_cons]
      simp [okEvents]

/-- C3: when the equipment-summary fetch succeeds for the first `k` loop
iterations and fails on iteration `k` (with thermostats remaining), the
scrape output is the fetch-time sample, the events of the first `k`
thermostats, and the logged error — nothing for the failing or later
thermostats, and the function returns normally. -/
theorem summary_fetch_failure_aborts_scrape (w : World) (tt : List Thermostat)
    (k : Nat) (e : String) (ms : Nat → SummaryMap)
    (ht : w.getThermostats thermostatSelection = .ok tt)
    (hok : ∀ j, j < k →
      w.getThermostatSummary summarySelection j = .ok (ms j))
    (herr : w.getThermostatSummary summarySelection k = .error e)
    (hk : k < tt.length) :
    collect w = Event.sample ⟨.fetchTime, w.elapsedSeconds, []⟩ ::
      (okEvents ms 0 (tt.take k) ++ [Event.logError e]) := by
  unfold collect
  rw [ht]
  exact congrArg (Event.sample ⟨.fetchTime, w.elapsedSeconds, []⟩ :: ·)
    (collectLoop_error w ms e tt 0 k
      (by intro j hj; simpa using hok j hj) (by simpa using herr) hk)

/-- Witness for C3: with two thermostats and the second summary call
failing, only the first thermostat's events precede the logged error. -/
theorem summary_fetch_failure_aborts_scrape_witness :
    collect exWorldPartial = Event.sample ⟨.fetchTime, 3, []⟩ ::
      (okEvents (fun _ => [("t2", ⟨exFanOn⟩)]) 0
          ([exNegative, exDisconnected].take 1) ++
        [Event.logError "summary down"]) :=
  summary_fetch_failure_aborts_scrape exWorldPartial
    [exNegative, exDisconnected] 1 "summary down"
    (fun _ => [("t2", ⟨exFanOn⟩)]) rfl
    (by intro j hj; have h0 : j = 0 := (by omega); subst h0; rfl) rfl
    (by decide)

/-- When every summary call yields the same map, the loop is the plain
concatenation of per-thermostat blocks. -/
lemma collectLoop_const (w : World) (m : SummaryMap)
    (hconst : ∀ k, w.getThermostatSummary summarySelection k = .ok m) :
    ∀ (tt : List Thermostat) (i : Nat),
      collectLoop w tt i = tt.flatMap (collectThermostat m) := by
  intro tt
  induction tt with
  | nil => intro i; rfl
  | cons t rest ih =>
    intro i
    unfold collectLoop
    rw [hconst i, ih (i + 1)]
    rfl

/-- C9: hoisting the equipment-summary fetch out of the per-thermostat loop
(performing it once per scrape) emits the same sample sequence as the
per-iteration re-fetch, whenever the repeated identical query would keep
returning the result of its first call — i.e. on any fixed input
snapshot. -/
theorem hoisted_equipment_fetch_equivalence (w : World)
    (hconst : ∀ k, w.getThermostatSummary summarySelection k =
      w.getThermostatSummary summarySelection 0) :
    samplesOf (collectHoisted w) = samplesOf (collect w) := by
  unfold collect collectHoisted
  cases ht : w.getThermostats thermostatSelection with
  | error e => rfl
  | ok tt =>
    cases hs : w.getThermostatSummary summarySelection 0 with
    | error e =>
      show samplesOf
          (Event.sample ⟨.fetchTime, w.elapsedSeconds, []⟩ ::
            [Event.logError e]) =
        samplesOf
          (Event.sample ⟨.fetchTime, w.elapsedSeconds, []⟩ ::
            collectLoop w tt 0)
      cases tt with
      | nil => simp [collectLoop, samplesOf]
      | cons t rest =>
        unfold collectLoop
        rw [hs]
    | ok m =>
      show samplesOf
          (Event.sample ⟨.fetchTime, w.elapsedSeconds, []⟩ ::
            tt.flatMap (collectThermostat m)) =
        samplesOf
          (Event.sample ⟨.fetchTime, w.elapsedSeconds, []⟩ ::
            collectLoop w tt 0)
      rw [collectLoop_const w m (fun k => (hconst k).trans hs) tt 0]

/-- Witness for C9 at a concrete world with a consistent summary result. -/
theorem hoisted_equipment_fetch_equivalence_witness :
    samplesOf (collectHoisted exWorldConst) = samplesOf (collect exWorldConst) :=
  hoisted_equipment_fetch_equivalence exWorldConst (fun _ => rfl)

end Ecobee
